import Mathlib

/-!
Shallow embedding of the installer/environment-detection subsystem of the
voiceflow monorepo CLI: the hardware data model and Whisper recommendation
engine (`apps/cli/src/installer/detectHardware.ts`), the dependency checker
(`checkDependencies` module), the exit helpers (`apps/cli/src/utils/error.ts`),
the streaming file downloader (`downloadFile`), and the safe numeric parsing
helpers (`safeParseInt` / `safeParseFloat`).

JavaScript numbers that are only ever integers in the source are modelled as
`Int` (so that out-of-range values such as a non-positive core count remain
expressible); byte counts are `Nat`; fractional JS values are `ℚ`.
-/

/-!
Exit helpers from `apps/cli/src/utils/error.ts`. Both helpers print a blank
line, a symbol-prefixed message, an optional suggestion line, a final blank
line, and then call `process.exit` with a fixed code; the model records the
printed lines and that exit code.
-/

/-!
Dependency checker (`installer` dependency module): `DependencyInfo`,
`SystemDependencies`, `checkDependenciesRequirements` and
`getMissingDependencies`.
-/

/-!
Hardware probing (`detectHardware.ts`): `detectHardware` runs the five
sub-probes through `Promise.allSettled` and replaces a rejected probe by the
documented default. The GPU sub-probe `detectGPU` merges the defaults with
the platform strategy's partial update (the strategy result is a settled
`Partial<GPUInfo>` or a caught exception) and exposes the merged record only
when it reports `available`.
-/

/-!
File downloader (`downloadFile` of the download module). The model makes the
effects explicit: whether the HTTP request was issued, the sequence of
progress callbacks, and the file written at the end. The cooperative abort
signal is modelled as the predicate `abortedAt k` giving the signal state at
the k-th poll (k = 0 is the pre-flight check, the loop polls once before
every read, and one final poll precedes the file write). Chunks delivered by
the response stream are byte lists.
-/

/-!
Safe numeric parsing (`utils/parse.ts`): `safeParseInt` and `safeParseFloat`
wrap `Number.parseInt(value.trim(), 10)` and `Number.parseFloat(value.trim())`
behind a falsy-input check and a NaN check. JS number results are classified
as a finite rational, a signed infinity, or NaN.
-/

/-- Interface `CPUInfo` of `detectHardware.ts`. `cores` and `threads` are JS
numbers (modelled as `Int`); `frequency` is optional. -/
structure CPUInfo where
  model : String
  cores : Int
  threads : Int
  architecture : String
  frequency : Option Int
  deriving Repr, DecidableEq

/-- Interface `MemoryInfo` of `detectHardware.ts`: totals in GB (rounded by
`detectMemory`), usage in percent. -/
structure MemoryInfo where
  total : Int
  available : Int
  usage : Int
  deriving Repr, DecidableEq

/-- Interface `GPUInfo` of `detectHardware.ts`. The three API flags are
optional booleans in the source but are always materialised to a boolean by
the initial object in `detectGPU` (JS truthiness: absent ≡ false). -/
structure GPUInfo where
  available : Bool
  vendor : Option String
  model : Option String
  memory : Option Int
  opencl : Bool
  cuda : Bool
  metal : Bool
  deriving Repr, DecidableEq

/-- Interface `DiskInfo` of `detectHardware.ts`. -/
structure DiskInfo where
  available : Int
  total : Int
  usage : Int
  deriving Repr, DecidableEq

/-- Interface `PlatformInfo` of `detectHardware.ts`. -/
structure PlatformInfo where
  os : String
  version : String
  architecture : String
  deriving Repr, DecidableEq

/-- Interface `HardwareInfo` of `detectHardware.ts`; `gpu` is optional. -/
structure HardwareInfo where
  cpu : CPUInfo
  memory : MemoryInfo
  gpu : Option GPUInfo
  disk : DiskInfo
  platform : PlatformInfo
  deriving Repr, DecidableEq

/-- `CONFIG.MAX_THREADS` of `detectHardware.ts`. -/
def MAX_THREADS : Int := 8

/-- `CONFIG.MEMORY_THRESHOLDS.LARGE_MODEL` (GB) of `detectHardware.ts`. -/
def LARGE_MODEL : Int := 8

/-- `CONFIG.MEMORY_THRESHOLDS.MEDIUM_MODEL` (GB) of `detectHardware.ts`. -/
def MEDIUM_MODEL : Int := 4

/-- `CONFIG.MEMORY_THRESHOLDS.SMALL_MODEL` (GB) of `detectHardware.ts`. -/
def SMALL_MODEL : Int := 2

/-- Result record of `getWhisperRecommendations` (`detectHardware.ts`):
`backend` ranges over the string union "cpu" | "cuda" | "opencl" | "metal". -/
structure WhisperRecommendations where
  useGPU : Bool
  threads : Int
  model : String
  backend : String
  deriving Repr, DecidableEq

/-- `getWhisperRecommendations` of `detectHardware.ts`: starts from the
defaults \x7buseGPU:false, threads:1, model:'base', backend:'cpu'\x7d, sets
`threads = Math.max(1, Math.min(cores, MAX_THREADS))`, picks the model by the
memory thresholds (≥8 large, ≥4 medium, ≥2 small, else base), and when
`gpu?.available` is truthy sets `useGPU` and picks the backend by priority
cuda, then metal, then opencl (leaving the default 'cpu' when no flag is
set). -/
def getWhisperRecommendations (hardware : HardwareInfo) : WhisperRecommendations :=
  let threads := max 1 (min hardware.cpu.cores MAX_THREADS)
  let model :=
    if hardware.memory.total ≥ LARGE_MODEL then ("large")
    else if hardware.memory.total ≥ MEDIUM_MODEL then ("medium")
    else if hardware.memory.total ≥ SMALL_MODEL then ("small")
    else ("base")
  match hardware.gpu with
  | some gpu =>
    if gpu.available then
      { useGPU := true
        threads := threads
        model := model
        backend :=
          if gpu.cuda then ("cuda")
          else if gpu.metal then ("metal")
          else if gpu.opencl then ("opencl")
          else ("cpu") }
    else
      { useGPU := false, threads := threads, model := model, backend := ("cpu") }
  | none =>
      { useGPU := false, threads := threads, model := model, backend := ("cpu") }

/-- A profile whose probed GPU reports `available` without any acceleration
API flag, exactly the shape produced by the `detectWindowsGPU` and
`detectLinuxOtherGPU` probe paths. -/
def gpuNoApiProfile : HardwareInfo :=
  ⟨⟨("cpu"), 4, 4, ("x64"), none⟩, ⟨16, 8, 50⟩,
    some ⟨true, none, none, none, false, false, false⟩, ⟨0, 0, 0⟩,
    ⟨("win32"), ("10"), ("x64")⟩⟩

/-- A profile whose CPU core count is 0 (below 1). -/
def zeroCoreProfile : HardwareInfo :=
  ⟨⟨("cpu"), 0, 0, ("x64"), none⟩, ⟨16, 8, 50⟩, none, ⟨0, 0, 0⟩,
    ⟨("linux"), ("1"), ("x64")⟩⟩

/-- Replace only the total-memory figure of a profile, leaving every other
field unchanged. -/
def setMemTotal (hw : HardwareInfo) (m : Int) : HardwareInfo :=
  { hw with memory := { hw.memory with total := m } }

/-- Rank of the model names in the order base < small < medium < large. -/
def modelRank (s : String) : Nat :=
  if s = ("base") then 0
  else if s = ("small") then 1
  else if s = ("medium") then 2
  else 3

/-- `quickExit` of `error.ts`: prints the 🔚-prefixed message (and optional
💡 suggestion) and calls `process.exit(0)`. -/
def quickExit (message : String) (suggestion : Option String) : List String × Nat :=
  (([("")] ++ [("🔚 ") ++ message] ++
      (match suggestion with
       | some s => [("💡 ") ++ s]
       | none => []) ++ [("")]), 0)

/-- `quickError` of `error.ts`: prints the ❌-prefixed message (and optional
💡 suggestion) and calls `process.exit(0)` — the source exits with code 0,
not a non-zero code. -/
def quickError (message : String) (suggestion : Option String) : List String × Nat :=
  (([("")] ++ [("❌ ") ++ message] ++
      (match suggestion with
       | some s => [("💡 ") ++ s]
       | none => []) ++ [("")]), 0)

/-- Interface `DependencyInfo`. -/
structure DependencyInfo where
  available : Bool
  version : Option String
  error : Option String
  deriving Repr, DecidableEq

/-- Interface `SystemDependencies`: git, cmake and compiler are required;
python and make are optional fields. -/
structure SystemDependencies where
  git : DependencyInfo
  cmake : DependencyInfo
  compiler : DependencyInfo
  python : Option DependencyInfo
  make : Option DependencyInfo
  deriving Repr, DecidableEq

/-- `checkDependenciesRequirements`: every dependency in the required list
`['git', 'cmake', 'compiler']` reports `available === true`. -/
def checkDependenciesRequirements (dependencies : SystemDependencies) : Bool :=
  [dependencies.git, dependencies.cmake, dependencies.compiler].all
    (fun dep => dep.available == true)

/-- `getMissingDependencies`: pushes, in order, "git", "cmake" and
"gcc/clang" for each required dependency that is not available. -/
def getMissingDependencies (dependencies : SystemDependencies) : List String :=
  (if !dependencies.git.available then [("git")] else []) ++
  (if !dependencies.cmake.available then [("cmake")] else []) ++
  (if !dependencies.compiler.available then [("gcc/clang")] else [])

/-- Outcome of one settled promise, as delivered by `Promise.allSettled`. -/
inductive ProbeOutcome (α : Type) where
  | fulfilled (value : α)
  | rejected
  deriving Repr, DecidableEq

/-- Map a function over a fulfilled probe outcome. -/
def ProbeOutcome.map {α β : Type} (f : α → β) : ProbeOutcome α → ProbeOutcome β
  | .fulfilled v => .fulfilled (f v)
  | .rejected => .rejected

/-- The host primitives `os.platform()`, `os.release()`, `os.arch()` used by
the default constructors (always available, cannot fail). -/
structure OSApi where
  platform : String
  release : String
  arch : String
  deriving Repr, DecidableEq

/-- `getDefaultCPU` of `detectHardware.ts`. -/
def getDefaultCPU (osapi : OSApi) : CPUInfo :=
  ⟨("未知"), 1, 1, osapi.arch, none⟩

/-- `getDefaultMemory` of `detectHardware.ts`. -/
def getDefaultMemory : MemoryInfo := ⟨0, 0, 0⟩

/-- `getDefaultDisk` of `detectHardware.ts`. -/
def getDefaultDisk : DiskInfo := ⟨0, 0, 0⟩

/-- `getDefaultPlatform` of `detectHardware.ts`. -/
def getDefaultPlatform (osapi : OSApi) : PlatformInfo :=
  ⟨osapi.platform, osapi.release, osapi.arch⟩

/-- `Partial<GPUInfo>` as built by the platform GPU strategies: a field that
is `none` is absent from the update object; a field that is `some v` is
present (for the optional source fields, possibly present-but-undefined). -/
structure GPUUpdates where
  available : Option Bool
  vendor : Option (Option String)
  model : Option (Option String)
  memory : Option (Option Int)
  opencl : Option Bool
  cuda : Option Bool
  metal : Option Bool
  deriving Repr, DecidableEq

/-- The object spread `{ ...gpu, ...updates }` of `detectGPU`: a key present
in `updates` overrides the base record. -/
def mergeGPU (gpu : GPUInfo) (updates : GPUUpdates) : GPUInfo :=
  { available :=
      match updates.available with
      | some b => b
      | none => gpu.available
    vendor :=
      match updates.vendor with
      | some v => v
      | none => gpu.vendor
    model :=
      match updates.model with
      | some m => m
      | none => gpu.model
    memory :=
      match updates.memory with
      | some m => m
      | none => gpu.memory
    opencl :=
      match updates.opencl with
      | some b => b
      | none => gpu.opencl
    cuda :=
      match updates.cuda with
      | some b => b
      | none => gpu.cuda
    metal :=
      match updates.metal with
      | some b => b
      | none => gpu.metal }

/-- The initial GPU record of `detectGPU` (all flags off, nothing known). -/
def initialGPU : GPUInfo := ⟨false, none, none, none, false, false, false⟩

/-- `detectGPU` of `detectHardware.ts`, parametrised by the settled result of
the platform strategy (`Except.error` models a caught exception, in which
case the initial record stands; an unmatched platform behaves like the empty
update). The merged record is returned only when `gpu.available` holds:
`return gpu.available ? gpu : undefined`. -/
def detectGPU (strategy : Except Unit GPUUpdates) : Option GPUInfo :=
  let gpu :=
    match strategy with
    | .ok updates => mergeGPU initialGPU updates
    | .error _ => initialGPU
  if gpu.available then some gpu else none

/-- `detectHardware` of `detectHardware.ts`, parametrised by the settled
outcomes of the five concurrent sub-probes: each rejected probe is replaced
by its default (`undefined` for the GPU). -/
def detectHardware (osapi : OSApi) (cpu : ProbeOutcome CPUInfo)
    (memory : ProbeOutcome MemoryInfo) (gpu : ProbeOutcome (Option GPUInfo))
    (disk : ProbeOutcome DiskInfo) (platform : ProbeOutcome PlatformInfo) :
    HardwareInfo :=
  { cpu :=
      match cpu with
      | .fulfilled v => v
      | .rejected => getDefaultCPU osapi
    memory :=
      match memory with
      | .fulfilled v => v
      | .rejected => getDefaultMemory
    gpu :=
      match gpu with
      | .fulfilled v => v
      | .rejected => none
    disk :=
      match disk with
      | .fulfilled v => v
      | .rejected => getDefaultDisk
    platform :=
      match platform with
      | .fulfilled v => v
      | .rejected => getDefaultPlatform osapi }

/-- Interface `DownloadProgress` of the download module. -/
structure DownloadProgress where
  progress : Nat
  totalSize : Nat
  currentSize : Nat
  deriving Repr, DecidableEq

/-- The parts of a settled `fetch` response read by `downloadFile`:
`ok`/`statusText`, the parsed content-length header, and the body as the
stream of chunks its reader will deliver (`none` models a null body). -/
structure FetchResponse where
  ok : Bool
  statusText : String
  contentLength : Option Nat
  body : Option (List (List Nat))
  deriving Repr, DecidableEq

/-- The distinct throw sites of `downloadFile`, one constructor per `throw
new Error(...)`: cancellation ('下载已被取消'), a non-success HTTP status
('下载 ... 失败: ...'), a zero/absent content length ('文件大小为 0'), and a
null body ('响应体为空'). -/
inductive DownloadError where
  | cancelled
  | httpFailure (url : String) (statusText : String)
  | zeroSize
  | emptyBody
  deriving Repr, DecidableEq

/-- Observable outcome of one `downloadFile` call: the returned/thrown
result, whether `fetch` was called, the progress callbacks issued in order,
and the file written via `fs.writeFile` (path and bytes), if any. -/
structure DownloadOutcome where
  result : Except DownloadError Unit
  fetchIssued : Bool
  progressEvents : List DownloadProgress
  writtenFile : Option (String × List Nat)
  deriving Repr

/-- `Math.round((downloadedSize / totalSize) * 100)` on non-negative values:
the floor of the value plus one half. -/
def roundPct (downloadedSize totalSize : Nat) : Nat :=
  (200 * downloadedSize + totalSize) / (2 * totalSize)

/-- The read loop of `downloadFile`: before each read it polls the abort
signal (throwing the cancellation error), a `done` read ends the loop, and
each delivered chunk is accumulated, counted, and (when the total size is
positive) reported through the progress callback as a rounded percent. The
model returns the callbacks issued so far together with either the error or
the accumulated chunks and the index of the next abort poll. -/
def downloadLoop (abortedAt : Nat → Bool) (totalSize : Nat)
    (chunks : List (List Nat)) (k downloadedSize : Nat) (acc : List (List Nat))
    (events : List DownloadProgress) :
    List DownloadProgress × Except DownloadError (List (List Nat) × Nat) :=
  if abortedAt k then (events, Except.error DownloadError.cancelled)
  else
    match chunks with
    | [] => (events, Except.ok (acc, k + 1))
    | value :: rest =>
      downloadLoop abortedAt totalSize rest (k + 1)
        (downloadedSize + value.length) (acc ++ [value])
        (if 0 < totalSize then
          events ++
            [⟨roundPct (downloadedSize + value.length) totalSize, totalSize,
              downloadedSize + value.length⟩]
         else events)

/-- `downloadFile` of the download module: pre-flight abort check, `fetch`,
HTTP status check, content-length validation, null-body check, the read
loop, a final abort check, and a single write of the concatenated chunks to
the target path. -/
def downloadFile (url targetPath : String) (abortedAt : Nat → Bool)
    (response : FetchResponse) : DownloadOutcome :=
  if abortedAt 0 then
    ⟨Except.error DownloadError.cancelled, false, [], none⟩
  else if !response.ok then
    ⟨Except.error (DownloadError.httpFailure url response.statusText), true, [], none⟩
  else
    let totalSize :=
      match response.contentLength with
      | some n => n
      | none => 0
    if totalSize = 0 then
      ⟨Except.error DownloadError.zeroSize, true, [], none⟩
    else
      match response.body with
      | none => ⟨Except.error DownloadError.emptyBody, true, [], none⟩
      | some chunks =>
        let loopResult := downloadLoop abortedAt totalSize chunks 1 0 [] []
        match loopResult.2 with
        | Except.error e => ⟨Except.error e, true, loopResult.1, none⟩
        | Except.ok (acc, kf) =>
          if abortedAt kf then
            ⟨Except.error DownloadError.cancelled, true, loopResult.1, none⟩
          else
            ⟨Except.ok (), true, loopResult.1, some (targetPath, acc.flatten)⟩

/-- The progress callbacks an uninterrupted read loop issues for a given
chunk stream, starting from a given downloaded byte count. -/
def progressList (totalSize : Nat) : Nat → List (List Nat) → List DownloadProgress
  | _, [] => []
  | downloadedSize, value :: rest =>
    ⟨roundPct (downloadedSize + value.length) totalSize, totalSize,
      downloadedSize + value.length⟩ ::
      progressList totalSize (downloadedSize + value.length) rest

/-- A JS number as produced by the parsing builtins: finite value, signed
infinity, or NaN. -/
inductive JSFloat where
  | num (value : ℚ)
  | inf (negative : Bool)
  | nan
  deriving Repr, DecidableEq

/-- Value of a list of decimal digit characters. -/
def digitsToNat (ds : List Char) : Nat :=
  ds.foldl (fun acc c => 10 * acc + (c.toNat - ('0').toNat)) 0

/-- `value.trim()`: strip leading and trailing whitespace. -/
def jsTrim (s : String) : String :=
  ⟨((s.toList.dropWhile Char.isWhitespace).reverse.dropWhile
      Char.isWhitespace).reverse⟩

/-- `Number.parseInt(s, 10)` on an already-trimmed string: optional sign,
then the longest run of decimal digits; no digit at all gives NaN. -/
def jsParseInt (s : String) : JSFloat :=
  let cs := s.toList
  let signedRest :=
    match cs with
    | '-' :: r => (true, r)
    | '+' :: r => (false, r)
    | r => (false, r)
  let ds := signedRest.2.takeWhile Char.isDigit
  if ds.isEmpty then JSFloat.nan
  else
    JSFloat.num
      (if signedRest.1 then -(digitsToNat ds : ℚ) else (digitsToNat ds : ℚ))

/-- `Number.parseFloat(s)` on an already-trimmed string: longest prefix
matching the decimal-literal grammar — optional sign, then either the
literal Infinity, or integer digits with an optional fraction and an
optional exponent; no digit in the mantissa gives NaN. -/
def jsParseFloat (s : String) : JSFloat :=
  let cs := s.toList
  let signedRest :=
    match cs with
    | '-' :: r => (true, r)
    | '+' :: r => (false, r)
    | r => (false, r)
  let negative := signedRest.1
  let rest := signedRest.2
  if ("Infinity").toList.isPrefixOf rest then JSFloat.inf negative
  else
    let intDigits := rest.takeWhile Char.isDigit
    let rest1 := rest.dropWhile Char.isDigit
    let fracRest :=
      match rest1 with
      | '.' :: r => (r.takeWhile Char.isDigit, r.dropWhile Char.isDigit)
      | r => ([], r)
    let fracDigits := fracRest.1
    if intDigits.isEmpty ∧ fracDigits.isEmpty then JSFloat.nan
    else
      let mantissa : ℚ :=
        (digitsToNat intDigits : ℚ) +
          (digitsToNat fracDigits : ℚ) / (10 : ℚ) ^ fracDigits.length
      let expDigits :=
        match fracRest.2 with
        | c :: r =>
          if c = 'e' ∨ c = 'E' then
            match r with
            | '-' :: r2 => (true, r2.takeWhile Char.isDigit)
            | '+' :: r2 => (false, r2.takeWhile Char.isDigit)
            | r2 => (false, r2.takeWhile Char.isDigit)
          else (false, [])
        | [] => (false, [])
      let expValue : Int :=
        if expDigits.2.isEmpty then 0
        else if expDigits.1 then -(digitsToNat expDigits.2 : Int)
        else (digitsToNat expDigits.2 : Int)
      JSFloat.num
        ((if negative then -mantissa else mantissa) * (10 : ℚ) ^ expValue)

/-- `safeParseInt` of `utils/parse.ts`: a falsy `value` (undefined or the
empty string) gives the default, otherwise the trimmed string is parsed in
base 10 and a NaN result falls back to the default. -/
def safeParseInt (value : Option String) (defaultValue : ℚ) : JSFloat :=
  match value with
  | none => JSFloat.num defaultValue
  | some s =>
    if s = ("") then JSFloat.num defaultValue
    else
      match jsParseInt (jsTrim s) with
      | JSFloat.nan => JSFloat.num defaultValue
      | parsed => parsed

/-- `safeParseFloat` of `utils/parse.ts`: a falsy `value` (undefined or the
empty string) gives the default, otherwise the trimmed string is parsed as a
float and a NaN result falls back to the default. -/
def safeParseFloat (value : Option String) (defaultValue : ℚ) : JSFloat :=
  match value with
  | none => JSFloat.num defaultValue
  | some s =>
    if s = ("") then JSFloat.num defaultValue
    else
      match jsParseFloat (jsTrim s) with
      | JSFloat.nan => JSFloat.num defaultValue
      | parsed => parsed

example :
    getWhisperRecommendations
      ⟨⟨("m"), 10, 10, ("arm64"), none⟩, ⟨16, 8, 50⟩,
        some ⟨true, none, none, none, false, false, true⟩, ⟨0, 0, 0⟩,
        ⟨("darwin"), ("1"), ("arm64")⟩⟩
      = ⟨true, 8, ("large"), ("metal")⟩ := by decide

example :
    getWhisperRecommendations
      ⟨⟨("m"), 2, 2, ("x64"), none⟩, ⟨4, 2, 50⟩, none, ⟨0, 0, 0⟩,
        ⟨("linux"), ("1"), ("x64")⟩⟩
      = ⟨false, 2, ("medium"), ("cpu")⟩ := by decide

/-- The `threads` field of the recommendation is the clamp of the core count,
independent of the GPU branch taken. -/
theorem getWhisperRecommendations_threads (hw : HardwareInfo) :
    (getWhisperRecommendations hw).threads = max 1 (min hw.cpu.cores MAX_THREADS) := by
  unfold getWhisperRecommendations
  cases hgpu : hw.gpu with
  | none => rfl
  | some gpu =>
    by_cases h : gpu.available <;> simp [h]

/-- The `model` field of the recommendation is the memory-threshold step
function, independent of the GPU branch taken. -/
theorem getWhisperRecommendations_model (hw : HardwareInfo) :
    (getWhisperRecommendations hw).model =
      (if hw.memory.total ≥ LARGE_MODEL then ("large")
       else if hw.memory.total ≥ MEDIUM_MODEL then ("medium")
       else if hw.memory.total ≥ SMALL_MODEL then ("small")
       else ("base")) := by
  unfold getWhisperRecommendations
  cases hgpu : hw.gpu with
  | none => rfl
  | some gpu =>
    by_cases h : gpu.available <;> simp [h]

/-- C1: on a profile whose GPU is available but exposes no CUDA/Metal/OpenCL
flag, `getWhisperRecommendations` returns `useGPU = true` together with
`backend = "cpu"`, contradicting the claim (and the repository's own test)
that an accelerated recommendation never uses the cpu backend. -/
theorem whisper_gpu_without_api_gives_cpu_backend :
    (getWhisperRecommendations gpuNoApiProfile).useGPU = true ∧
    (getWhisperRecommendations gpuNoApiProfile).backend = ("cpu") := by
  decide

/-- C2 counterexample: at `cpu.cores = 0` the interval
`[1, min(cpu.cores, 8)]` is empty, so the returned thread count (which is 1)
cannot lie in it. -/
theorem threadCount_interval_fails_at_zero_cores :
    ¬ (1 ≤ (getWhisperRecommendations zeroCoreProfile).threads ∧
        (getWhisperRecommendations zeroCoreProfile).threads ≤
          min zeroCoreProfile.cpu.cores MAX_THREADS) := by
  decide

/-- C2 (amended): the thread count is always in `[1, 8]`; whenever
`cpu.cores ≥ 1` it moreover lies in `[1, min(cpu.cores, 8)]`, and whenever
`cpu.cores < 1` it equals 1. -/
theorem threadCount_clamped (hw : HardwareInfo) :
    1 ≤ (getWhisperRecommendations hw).threads ∧
    (getWhisperRecommendations hw).threads ≤ MAX_THREADS ∧
    (1 ≤ hw.cpu.cores →
      (getWhisperRecommendations hw).threads ≤ min hw.cpu.cores MAX_THREADS) ∧
    (hw.cpu.cores < 1 → (getWhisperRecommendations hw).threads = 1) := by
  rw [getWhisperRecommendations_threads]
  unfold MAX_THREADS
  omega

/-- Witness for `threadCount_clamped` at the zero-core profile. -/
theorem threadCount_clamped_witness :
    1 ≤ (getWhisperRecommendations zeroCoreProfile).threads ∧
    (getWhisperRecommendations zeroCoreProfile).threads = 1 :=
  ⟨(threadCount_clamped zeroCoreProfile).1,
    (threadCount_clamped zeroCoreProfile).2.2.2 (by decide)⟩

/-- C3: the recommended model is a monotone step function of the total
memory: raising only `memory.total` never lowers the model rank, and any
profile below the smallest threshold gets the smallest model "base". -/
theorem whisper_model_monotone (hw : HardwareInfo) (m1 m2 : Int) (h : m1 ≤ m2) :
    modelRank (getWhisperRecommendations (setMemTotal hw m1)).model ≤
      modelRank (getWhisperRecommendations (setMemTotal hw m2)).model ∧
    (hw.memory.total < SMALL_MODEL →
      (getWhisperRecommendations hw).model = ("base")) := by
  constructor
  · rw [getWhisperRecommendations_model, getWhisperRecommendations_model]
    simp only [setMemTotal]
    unfold LARGE_MODEL MEDIUM_MODEL SMALL_MODEL
    split_ifs <;> simp [modelRank] <;> omega
  · intro hlt
    rw [getWhisperRecommendations_model]
    unfold LARGE_MODEL MEDIUM_MODEL SMALL_MODEL at *
    split_ifs <;> first | rfl | omega

/-- Witness for `whisper_model_monotone`: memory 1 GB versus 16 GB on the
zero-core profile, whose own total is below the smallest threshold. -/
theorem whisper_model_monotone_witness :
    modelRank (getWhisperRecommendations (setMemTotal zeroCoreProfile 1)).model ≤
      modelRank (getWhisperRecommendations (setMemTotal zeroCoreProfile 16)).model ∧
    (getWhisperRecommendations (setMemTotal zeroCoreProfile 1)).model = ("base") :=
  ⟨(whisper_model_monotone zeroCoreProfile 1 16 (by decide)).1,
    (whisper_model_monotone (setMemTotal zeroCoreProfile 1) 0 0 (by decide)).2 (by decide)⟩

/-- C4: evaluated at any fatal error, the `quickError` exit path terminates
with exit code 0 — the same code as the cancellation path `quickExit` — and
not with the non-zero code the claim requires. -/
theorem quickError_exits_with_code_zero :
    (quickError ("安装失败") none).2 = 0 ∧ (quickExit ("用户取消") none).2 = 0 := by
  decide

/-- C7: the requirement check succeeds exactly when git, cmake and the
compiler all report available; in particular it holds on the all-available
set and fails when any one of the three is flipped to unavailable. -/
theorem checkDependenciesRequirements_iff_all_available
    (dependencies : SystemDependencies) :
    checkDependenciesRequirements dependencies = true ↔
      (dependencies.git.available = true ∧ dependencies.cmake.available = true ∧
        dependencies.compiler.available = true) := by
  simp [checkDependenciesRequirements]

/-- Witness for `checkDependenciesRequirements_iff_all_available` on the
all-available set. -/
theorem checkDependenciesRequirements_iff_witness :
    checkDependenciesRequirements
      ⟨⟨true, none, none⟩, ⟨true, none, none⟩, ⟨true, none, none⟩, none, none⟩ = true :=
  (checkDependenciesRequirements_iff_all_available
    ⟨⟨true, none, none⟩, ⟨true, none, none⟩, ⟨true, none, none⟩, none, none⟩).mpr
    ⟨rfl, rfl, rfl⟩

/-- C8: the requirement check succeeds exactly when the missing-dependency
list is empty — the two functions agree on the required subset. -/
theorem checkDependenciesRequirements_iff_no_missing
    (dependencies : SystemDependencies) :
    checkDependenciesRequirements dependencies = true ↔
      getMissingDependencies dependencies = [] := by
  cases hg : dependencies.git.available <;>
    cases hc : dependencies.cmake.available <;>
      cases hk : dependencies.compiler.available <;>
        simp [checkDependenciesRequirements, getMissingDependencies, hg, hc, hk]

/-- Witness for `checkDependenciesRequirements_iff_no_missing` on a set with
an unavailable compiler. -/
theorem checkDependenciesRequirements_iff_no_missing_witness :
    ¬ checkDependenciesRequirements
        ⟨⟨true, none, none⟩, ⟨true, none, none⟩, ⟨false, none, none⟩, none, none⟩ = true :=
  fun h =>
    List.cons_ne_nil _ _
      ((checkDependenciesRequirements_iff_no_missing
        ⟨⟨true, none, none⟩, ⟨true, none, none⟩, ⟨false, none, none⟩, none, none⟩).mp h)

/-- C9: whatever the GPU strategy outcome and the other probes, when the
profile built by `detectHardware` carries a defined `gpu` field, that record
has `available = true`; an unavailable probed GPU is never exposed. -/
theorem detectHardware_gpu_available (osapi : OSApi) (cpu : ProbeOutcome CPUInfo)
    (memory : ProbeOutcome MemoryInfo)
    (strategy : ProbeOutcome (Except Unit GPUUpdates))
    (disk : ProbeOutcome DiskInfo) (platform : ProbeOutcome PlatformInfo)
    (g : GPUInfo)
    (hg : (detectHardware osapi cpu memory (strategy.map detectGPU) disk
        platform).gpu = some g) :
    g.available = true := by
  cases strategy with
  | rejected => simp [detectHardware, ProbeOutcome.map] at hg
  | fulfilled s =>
    simp only [detectHardware, ProbeOutcome.map] at hg
    cases s with
    | error e => simp [detectGPU, initialGPU] at hg
    | ok updates =>
      simp only [detectGPU] at hg
      cases hG : (mergeGPU initialGPU updates).available <;> simp [hG] at hg
      rw [← hg]
      exact hG

/-- Witness for `detectHardware_gpu_available`: a strategy that found an
NVIDIA GPU with CUDA. -/
theorem detectHardware_gpu_available_witness :
    (mergeGPU initialGPU
      ⟨some true, some (some ("NVIDIA")), none, none, none, some true, none⟩).available
      = true :=
  detectHardware_gpu_available ⟨("linux"), ("1"), ("x64")⟩ .rejected .rejected
    (.fulfilled (.ok ⟨some true, some (some ("NVIDIA")), none, none, none, some true, none⟩))
    .rejected .rejected
    (mergeGPU initialGPU
      ⟨some true, some (some ("NVIDIA")), none, none, none, some true, none⟩)
    (by decide)

example :
    downloadFile ("u") ("p") (fun _ => false) ⟨true, ("OK"), some 2, some [[9], [8]]⟩ =
      ⟨Except.ok (), true,
        [⟨50, 2, 1⟩, ⟨100, 2, 2⟩], some (("p"), [9, 8])⟩ := by rfl

/-- C5: a pre-signaled abort signal makes `downloadFile` fail immediately
with the cancellation error: no request is issued, no progress is reported,
and no file is written. -/
theorem downloadFile_presignaled_cancels (url targetPath : String)
    (abortedAt : Nat → Bool) (response : FetchResponse)
    (h : abortedAt 0 = true) :
    downloadFile url targetPath abortedAt response =
      ⟨Except.error DownloadError.cancelled, false, [], none⟩ := by
  simp [downloadFile, h]

/-- Witness for `downloadFile_presignaled_cancels` on a concrete aborted
session with a healthy response. -/
theorem downloadFile_presignaled_cancels_witness :
    downloadFile ("https://example.com/model.bin") ("/tmp/model.bin")
      (fun _ => true) ⟨true, ("OK"), some 4, some [[1, 2], [3, 4]]⟩ =
      ⟨Except.error DownloadError.cancelled, false, [], none⟩ :=
  downloadFile_presignaled_cancels ("https://example.com/model.bin")
    ("/tmp/model.bin") (fun _ => true) ⟨true, ("OK"), some 4, some [[1, 2], [3, 4]]⟩
    rfl

/-- `roundPct` is monotone in the downloaded byte count. -/
theorem roundPct_mono (totalSize a b : Nat) (h : a ≤ b) :
    roundPct a totalSize ≤ roundPct b totalSize :=
  Nat.div_le_div_right (by omega)

/-- A completed download reports exactly 100 percent. -/
theorem roundPct_total (totalSize : Nat) (h : 0 < totalSize) :
    roundPct totalSize totalSize = 100 :=
  Nat.div_eq_of_lt_le (by omega) (by omega)

/-- When the read loop returns successfully, the callbacks it has issued are
the starting ones followed by the canonical progress list of the remaining
chunks. -/
theorem downloadLoop_ok_events (abortedAt : Nat → Bool) (totalSize : Nat)
    (hT : 0 < totalSize) :
    ∀ (chunks : List (List Nat)) (k downloadedSize : Nat)
      (acc : List (List Nat)) (events : List DownloadProgress)
      (res : List (List Nat) × Nat),
      (downloadLoop abortedAt totalSize chunks k downloadedSize acc events).2 =
        Except.ok res →
      (downloadLoop abortedAt totalSize chunks k downloadedSize acc events).1 =
        events ++ progressList totalSize downloadedSize chunks := by
  intro chunks
  induction chunks with
  | nil =>
    intro k d acc events res h
    rw [downloadLoop]
    cases hk : abortedAt k <;> simp [hk, progressList]
  | cons value rest ih =>
    intro k d acc events res h
    rw [downloadLoop] at h ⊢
    cases hk : abortedAt k
    · simp only [hk, Bool.false_eq_true, if_false] at h ⊢
      rw [if_pos hT] at h ⊢
      rw [ih (k + 1) (d + value.length) (acc ++ [value]) _ res h]
      rw [progressList]
      simp [List.append_assoc]
    · simp [hk] at h

/-- The canonical progress list reports monotonically non-decreasing
percentages. -/
theorem progressList_chain (totalSize : Nat) (chunks : List (List Nat)) :
    ∀ d : Nat,
      List.Chain' (fun a b => a ≤ b)
        ((progressList totalSize d chunks).map DownloadProgress.progress) := by
  induction chunks with
  | nil => intro d; simp [progressList]
  | cons value rest ih =>
    intro d
    rw [progressList]
    simp only [List.map_cons]
    rw [List.chain'_cons']
    refine ⟨?_, ih (d + value.length)⟩
    intro y hy
    cases rest with
    | nil => simp [progressList] at hy
    | cons v2 r2 =>
      rw [progressList] at hy
      simp only [List.map_cons, List.head?_cons, Option.mem_def,
        Option.some.injEq] at hy
      rw [← hy]
      exact roundPct_mono totalSize _ _ (by omega)

/-- The last entry of a non-empty canonical progress list carries the full
downloaded byte count. -/
theorem progressList_getLast (totalSize : Nat) (chunks : List (List Nat)) :
    ∀ d : Nat, chunks ≠ [] →
      (progressList totalSize d chunks).getLast? =
        some ⟨roundPct (d + (chunks.map List.length).sum) totalSize, totalSize,
          d + (chunks.map List.length).sum⟩ := by
  induction chunks with
  | nil => intro d h; exact absurd rfl h
  | cons value rest ih =>
    intro d _
    cases rest with
    | nil => simp [progressList]
    | cons v2 r2 =>
      rw [progressList]
      obtain ⟨t0, ts, hts⟩ :
          ∃ t0 ts, progressList totalSize (d + value.length) (v2 :: r2) = t0 :: ts := by
        rw [progressList]
        exact ⟨_, _, rfl⟩
      rw [hts, List.getLast?_cons_cons, ← hts,
        ih (d + value.length) (List.cons_ne_nil _ _)]
      have harith :
          d + value.length + ((v2 :: r2).map List.length).sum =
            d + ((value :: v2 :: r2).map List.length).sum := by
        simp [List.map_cons, List.sum_cons]
        omega
      rw [harith]

/-- C6: every successful `downloadFile` run over a response with a known
positive content length whose chunks deliver exactly that many bytes reports
a monotonically non-decreasing sequence of rounded integer percentages whose
final value is 100, all before the call returns. -/
theorem downloadFile_progress_monotone_to_100 (url targetPath : String)
    (abortedAt : Nat → Bool) (response : FetchResponse) (totalSize : Nat)
    (chunks : List (List Nat)) (hcl : response.contentLength = some totalSize)
    (hT : 0 < totalSize) (hbody : response.body = some chunks)
    (hsum : (chunks.map List.length).sum = totalSize)
    (hok : (downloadFile url targetPath abortedAt response).result = Except.ok ()) :
    List.Chain' (fun a b => a ≤ b)
      ((downloadFile url targetPath abortedAt response).progressEvents.map
        DownloadProgress.progress) ∧
    ((downloadFile url targetPath abortedAt response).progressEvents.map
        DownloadProgress.progress).getLast? = some 100 := by
  have hchunksne : chunks ≠ [] := by
    intro hnil
    rw [hnil] at hsum
    simp at hsum
    omega
  have hev : (downloadFile url targetPath abortedAt response).progressEvents =
      progressList totalSize 0 chunks := by
    unfold downloadFile at hok ⊢
    simp only [hcl, hbody] at hok ⊢
    cases h0 : abortedAt 0
    · simp only [h0, Bool.false_eq_true, if_false] at hok ⊢
      cases hko : response.ok
      · simp [hko] at hok
      · simp only [hko, Bool.not_true, Bool.false_eq_true, if_false] at hok ⊢
        rw [if_neg (by omega)] at hok ⊢
        cases hE : (downloadLoop abortedAt totalSize chunks 1 0 [] []).2 with
        | error e => simp [hE] at hok
        | ok p =>
          obtain ⟨acc, kf⟩ := p
          simp only [hE] at hok ⊢
          cases hkf : abortedAt kf
          · simp only [hkf, Bool.false_eq_true, if_false]
            have := downloadLoop_ok_events abortedAt totalSize hT chunks 1 0 [] []
              (acc, kf) hE
            simpa using this
          · simp [hkf] at hok
    · simp [h0] at hok
  rw [hev]
  refine ⟨progressList_chain totalSize chunks 0, ?_⟩
  rw [List.getLast?_map, progressList_getLast totalSize chunks 0 hchunksne]
  simp only [Option.map_some']
  rw [show (0 + (chunks.map List.length).sum) = totalSize by omega]
  rw [roundPct_total totalSize hT]

/-- Witness for `downloadFile_progress_monotone_to_100` on a two-chunk
download of two bytes. -/
theorem downloadFile_progress_monotone_to_100_witness :
    List.Chain' (fun a b => a ≤ b)
      ((downloadFile ("u") ("p") (fun _ => false)
        ⟨true, ("OK"), some 2, some [[9], [8]]⟩).progressEvents.map
        DownloadProgress.progress) ∧
    ((downloadFile ("u") ("p") (fun _ => false)
        ⟨true, ("OK"), some 2, some [[9], [8]]⟩).progressEvents.map
        DownloadProgress.progress).getLast? = some 100 :=
  downloadFile_progress_monotone_to_100 ("u") ("p") (fun _ => false)
    ⟨true, ("OK"), some 2, some [[9], [8]]⟩ 2 [[9], [8]] rfl (by decide) rfl
    (by decide) rfl

example : jsParseInt ("42abc") = JSFloat.num 42 := by decide

example : jsParseInt ("-7") = JSFloat.num (-7) := by decide

example : jsParseInt ("abc") = JSFloat.nan := by decide

example : jsParseFloat ("-Infinity") = JSFloat.inf true := by decide

example : jsParseFloat (".") = JSFloat.nan := by decide

/-- C10: both helpers are total and never produce NaN; an undefined or empty
input and an unparseable string give the supplied default, and a string
whose trimmed prefix parses to a finite number gives exactly that number. -/
theorem safeParse_total_never_nan (value : Option String) (defaultValue : ℚ) :
    safeParseInt value defaultValue ≠ JSFloat.nan ∧
    safeParseFloat value defaultValue ≠ JSFloat.nan ∧
    (value = none →
      safeParseInt value defaultValue = JSFloat.num defaultValue ∧
      safeParseFloat value defaultValue = JSFloat.num defaultValue) ∧
    (value = some ("") →
      safeParseInt value defaultValue = JSFloat.num defaultValue ∧
      safeParseFloat value defaultValue = JSFloat.num defaultValue) ∧
    (∀ s, value = some s → jsParseInt (jsTrim s) = JSFloat.nan →
      safeParseInt value defaultValue = JSFloat.num defaultValue) ∧
    (∀ s, value = some s → jsParseFloat (jsTrim s) = JSFloat.nan →
      safeParseFloat value defaultValue = JSFloat.num defaultValue) ∧
    (∀ s q, value = some s → jsParseInt (jsTrim s) = JSFloat.num q →
      safeParseInt value defaultValue = JSFloat.num q) ∧
    (∀ s q, value = some s → jsParseFloat (jsTrim s) = JSFloat.num q →
      safeParseFloat value defaultValue = JSFloat.num q) := by
  cases value with
  | none =>
    refine ⟨by simp [safeParseInt], by simp [safeParseFloat],
      fun _ => ⟨rfl, rfl⟩, by simp, by simp, by simp, by simp, by simp⟩
  | some s =>
    by_cases hs : s = ("")
    · subst hs
      refine ⟨by simp [safeParseInt], by simp [safeParseFloat], by simp,
        fun _ => ⟨rfl, rfl⟩, ?_, ?_, ?_, ?_⟩
      · intro t ht _
        cases ht
        rfl
      · intro t ht _
        cases ht
        rfl
      · intro t q ht hq
        cases ht
        have hn : jsParseInt (jsTrim ("")) = JSFloat.nan := by decide
        rw [hn] at hq
        exact absurd hq (by simp)
      · intro t q ht hq
        cases ht
        have hn : jsParseFloat (jsTrim ("")) = JSFloat.nan := by decide
        rw [hn] at hq
        exact absurd hq (by simp)
    · have hint : safeParseInt (some s) defaultValue =
          (match jsParseInt (jsTrim s) with
           | JSFloat.nan => JSFloat.num defaultValue
           | parsed => parsed) := by
        simp [safeParseInt, hs]
      have hfloat : safeParseFloat (some s) defaultValue =
          (match jsParseFloat (jsTrim s) with
           | JSFloat.nan => JSFloat.num defaultValue
           | parsed => parsed) := by
        simp [safeParseFloat, hs]
      refine ⟨?_, ?_, by simp, by simp [hs], ?_, ?_, ?_, ?_⟩
      · rw [hint]
        cases jsParseInt (jsTrim s) <;> simp
      · rw [hfloat]
        cases jsParseFloat (jsTrim s) <;> simp
      · intro t ht hnan
        cases ht
        rw [hint, hnan]
      · intro t ht hnan
        cases ht
        rw [hfloat, hnan]
      · intro t q ht hq
        cases ht
        rw [hint, hq]
      · intro t q ht hq
        cases ht
        rw [hfloat, hq]

/-- Witness for `safeParse_total_never_nan`: a padded numeric string parses
to its value and an unparseable string falls back to the default 0. -/
theorem safeParse_total_never_nan_witness :
    safeParseInt (some ("  42 ")) 0 = JSFloat.num 42 ∧
    safeParseFloat (some ("abc")) 0 = JSFloat.num 0 :=
  ⟨(safeParse_total_never_nan (some ("  42 ")) 0).2.2.2.2.2.2.1 ("  42 ") 42 rfl
      (by decide),
    (safeParse_total_never_nan (some ("abc")) 0).2.2.2.2.2.1 ("abc") rfl (by decide)⟩
